import Mathlib

/-!
# Verification of the secondbraindev core: decision search and task reconciliation

Shallow embedding of the two algorithmic components of the repository:

* the embedding-based decision search (`src/backend/src/services/embeddings.js`:
  `cosineSimilarity`, `searchDecisions`) together with the search HTTP route
  (fallback LIKE search, semantic search, answer synthesis and its error path);
* the OCR/transcription task reconciler (`normalizeTitle` and the
  `POST /save-tasks` handler, present identically in the image-analyses and
  recordings routers).

JavaScript numbers are modelled as exact real numbers; the one non-finite
value that the similarity code can produce (`0/0 = NaN` on a zero-norm
vector) is modelled explicitly as `Option.none`.  Strings are Lean strings;
the JS string operations used by the code are ASCII-level and are modelled
character by character.
-/

namespace SecondBrain

/-! ## String helpers (models of the JS string operations used by the code) -/

/-- Whitespace as matched by the JS `\s` class / `String.prototype.trim`,
restricted to the ASCII whitespace actually relevant to the embedded code. -/
def isWS (c : Char) : Bool :=
  c == ' ' || c == '\t' || c == '\n' || c == '\r'

/-- The trailing-punctuation class `[.,!?;:]` of `normalizeTitle`. -/
def isTrailingPunct (c : Char) : Bool :=
  c == '.' || c == ',' || c == '!' || c == '?' || c == ';' || c == ':'

/-- The quote class `['"]` of `normalizeTitle` (apostrophe written by code). -/
def isQuoteChar (c : Char) : Bool :=
  c == Char.ofNat 39 || c == Char.ofNat 34

/-- Model of `String.prototype.trim`: drop leading and trailing whitespace. -/
def trimChars (l : List Char) : List Char :=
  ((l.dropWhile isWS).reverse.dropWhile isWS).reverse

/-- `s.trim()` on strings. -/
def strTrim (s : String) : String :=
  ⟨trimChars s.data⟩

/-- Collapse every run of two or more spaces to a single space (the second
half of the `replace(/\s+/g, ' ')` step, after whitespace has been mapped
to plain spaces). -/
def squashSpaces : List Char → List Char
  | [] => []
  | [c] => [c]
  | a :: b :: t =>
    if a == ' ' && b == ' ' then squashSpaces (b :: t)
    else a :: squashSpaces (b :: t)

/-- Model of `replace(/\s+/g, ' ')`: every maximal whitespace run becomes a
single space. -/
def collapseWS (l : List Char) : List Char :=
  squashSpaces (l.map (fun c => if isWS c then ' ' else c))

/-- Model of `normalizeTitle` (routers file, lines 557-564): lowercase,
trim, strip one trailing run of `[.,!?;:]`, delete quote characters, then
collapse whitespace runs to single spaces. -/
def normalizeTitle (title : String) : String :=
  ⟨collapseWS
    (((trimChars (title.data.map Char.toLower)).reverse.dropWhile
        isTrailingPunct).reverse.filter (fun c => !(isQuoteChar c)))⟩

/-! ## Task reconciler (the `POST /save-tasks` handler)

The handler appears twice in the repository, verbatim (image-analyses router
and recordings router); one model covers both.  The input contract of the
reconciler (spec §4.2) is a list whose entries are bare title strings or
objects `{title?, status?, priority?}`; this typed domain is what the model
quantifies over. -/

/-- A row of the `tasks` table, restricted to the columns the handler reads
and writes (`id`, `projectId`, `title`, `status`, `priority`).  `id` models
the `AUTOINCREMENT` primary key. -/
structure TaskRow where
  id : Nat
  projectId : Nat
  title : String
  status : String
  priority : String
deriving DecidableEq, Repr

/-- One element of the request's `tasks` array: a bare string or an object
with optional `title`, `status`, `priority` fields. -/
inductive TaskEntry where
  | str (s : String)
  | obj (title : Option String) (status : Option String) (priority : Option String)
deriving DecidableEq, Repr

/-- `typeof task === 'string' ? task : task.title`. -/
def entryTitle : TaskEntry → Option String
  | .str s => some s
  | .obj t _ _ => t

/-- `(typeof task === 'object' && task.status === 'done') ? 'done' : 'pending'`. -/
def entryStatus : TaskEntry → String
  | .str _ => "pending"
  | .obj _ s _ => if s = some "done" then "done" else "pending"

/-- `(typeof task === 'object' && ['low','medium','high'].includes(task.priority)) ? task.priority : 'medium'`. -/
def entryPriority : TaskEntry → String
  | .str _ => "medium"
  | .obj _ _ p =>
    match p with
    | some q => if q = "low" ∨ q = "medium" ∨ q = "high" then q else "medium"
    | none => "medium"

/-- `!title` is truthy-false exactly for a missing title and for `""`. -/
def entryHasTitle (e : TaskEntry) : Bool :=
  match entryTitle e with
  | some t => !(t == "")
  | none => false

/-- `existingTasksMap.get key`: the map is populated by one `set` per
existing task in row order, so a later task with the same normalized title
overwrites an earlier one — lookup finds the last match. -/
def lookupNorm (snap : List TaskRow) (key : String) : Option TaskRow :=
  snap.reverse.find? (fun t => normalizeTitle t.title == key)

/-- `UPDATE tasks SET status = 'done' WHERE id = ?`. -/
def setDone (table : List TaskRow) (id : Nat) : List TaskRow :=
  table.map (fun t => if t.id == id then { t with status := "done" } else t)

/-- Mutable state threaded through the entry loop: the `tasks` table, the
next `AUTOINCREMENT` id, and the three counters. -/
structure BatchState where
  table : List TaskRow
  nextId : Nat
  created : Nat
  updated : Nat
  skipped : Nat
deriving DecidableEq, Repr

/-- The row inserted by `insertTask.run(projectId, title.trim(), status, priority)`. -/
def mkNewRow (p nid : Nat) (e : TaskEntry) : TaskRow :=
  ⟨nid, p, strTrim ((entryTitle e).getD ""), entryStatus e, entryPriority e⟩

/-- One iteration of the `for (const task of tasks)` loop.  `snap` is the
existing-task snapshot read once before the loop; it is *not* updated by
inserts, and the `existingTask` objects in it are *not* refreshed by status
updates. -/
def processEntry (mode : String) (p : Nat) (snap : List TaskRow)
    (st : BatchState) (e : TaskEntry) : BatchState :=
  match entryTitle e with
  | none => st
  | some title =>
    if title = "" then st
    else
      let status := entryStatus e
      let priority := entryPriority e
      let normalizedTitle := normalizeTitle title
      let existingTask := lookupNorm snap normalizedTitle
      if mode = "create_new" then
        { st with table := st.table ++ [⟨st.nextId, p, strTrim title, status, priority⟩],
                  nextId := st.nextId + 1, created := st.created + 1 }
      else
        match existingTask with
        | some ex =>
          if status = "done" ∧ ex.status ≠ "done" then
            { st with table := setDone st.table ex.id, updated := st.updated + 1 }
          else
            { st with skipped := st.skipped + 1 }
        | none =>
          { st with table := st.table ++ [⟨st.nextId, p, strTrim title, status, priority⟩],
                    nextId := st.nextId + 1, created := st.created + 1 }

/-- The `stats` object of the JSON response. -/
structure SaveStats where
  created : Nat
  updated : Nat
  skipped : Nat
  total : Nat
deriving DecidableEq, Repr

/-- The JSON response of `POST /save-tasks`: a 400 `InvalidInput` rejection
or a success payload with stats and the mode used. -/
inductive SaveResp where
  | invalid (msg : String)
  | ok (stats : SaveStats) (mode : String)
deriving DecidableEq, Repr

/-- The `tasks` value of the request body as validated by
`!tasks || !Array.isArray(tasks)`: absent, present but not an array, or an
array of entries. -/
inductive TasksField where
  | missing
  | notArray
  | arr (ts : List TaskEntry)
deriving DecidableEq, Repr

/-- Response plus resulting `tasks` table (the handler's observable effects). -/
structure SaveOutcome where
  response : SaveResp
  table : List TaskRow
deriving DecidableEq, Repr

/-- Model of the `POST /save-tasks` handler.  `table` is the whole `tasks`
table; the snapshot is its restriction to the project, read once.  `nextId`
is the next free `AUTOINCREMENT` id. -/
def saveTasks (pid : Option Nat) (tf : TasksField) (mode : String)
    (table : List TaskRow) (nextId : Nat) : SaveOutcome :=
  match pid, tf with
  | some p, .arr ts =>
    let snap := table.filter (fun t => t.projectId == p)
    let final := ts.foldl (processEntry mode p snap) ⟨table, nextId, 0, 0, 0⟩
    ⟨.ok ⟨final.created, final.updated, final.skipped, ts.length⟩ mode, final.table⟩
  | _, _ => ⟨.invalid "projectId and tasks array are required", table⟩

/-- Is the response the 400 rejection? -/
def SaveResp.isInvalid : SaveResp → Bool
  | .invalid _ => true
  | .ok _ _ => false

/-- The entries the loop does not `continue` past: those with a truthy title. -/
def titledEntries (ts : List TaskEntry) : List TaskEntry :=
  ts.filter entryHasTitle

/-- The rows `create_new` mode inserts for a list of (titled) entries,
with consecutive ids starting at `nid`. -/
def createRows (p : Nat) : Nat → List TaskEntry → List TaskRow
  | _, [] => []
  | nid, e :: es => mkNewRow p nid e :: createRows p (nid + 1) es

/-! ## Decision search (embeddings service and search route)

`cosineSimilarity` and `searchDecisions` are from
`src/backend/src/services/embeddings.js`; the route model is the
`POST /` smart-search handler of the search router.  JS numbers are exact
reals; the single non-finite value the similarity code can produce
(`0/0 = NaN`, when a vector has zero norm and hence both the dot product
and the denominator are `0`) is modelled as `Option.none`. -/

/-- The loop accumulator `dotProduct` (and, applied to a list with itself,
`normA` / `normB`): the sum of pointwise products.  The JS loop runs over
`a`'s indices, but is only reached when the lengths are equal, where it
agrees with the truncating `zipWith`. -/
def dotL (a b : List ℝ) : ℝ :=
  (List.zipWith (· * ·) a b).sum

/-- Model of `cosineSimilarity`: `0` on a length mismatch, otherwise
`dot / (√normA · √normB)`; a zero denominator (zero-norm input, where the
numerator is forced to `0` as well) makes the JS division produce `NaN`,
modelled as `none`. -/
noncomputable def cosineSimilarity (a b : List ℝ) : Option ℝ :=
  if a.length ≠ b.length then some 0
  else if Real.sqrt (dotL a a) * Real.sqrt (dotL b b) = 0 then none
  else some (dotL a b / (Real.sqrt (dotL a a) * Real.sqrt (dotL b b)))

/-- A row of the `decisions` table as read by the search code.  `createdAt`
abstracts the SQLite datetime string; only its order matters.  The three
text columns besides `title` are nullable. -/
structure DecisionRow where
  id : Nat
  title : String
  description : Option String
  reason : Option String
  consequences : Option String
  embedding : Option (List ℝ)
  createdAt : Nat

/-- A semantic search result: the decision's pass-through fields (reduced
to `id` and `title` here) plus its similarity score. -/
structure SRes where
  id : Nat
  title : String
  score : ℝ

/-- The JS filter `d => d.score > 0.3`: a score survives iff it is a number
(not `NaN`) strictly above `0.3`. -/
noncomputable def thresholdScore (x : Option ℝ) : Option ℝ :=
  match x with
  | none => none
  | some s => if (3 : ℝ) / 10 < s then some s else none

/-- The sort comparator `(a, b) => b.score - a.score`: `a` is placed before
`b` exactly when `b.score ≤ a.score`, i.e. descending by score. -/
def scoreDesc (x y : SRes) : Prop :=
  y.score ≤ x.score

noncomputable instance : DecidableRel scoreDesc :=
  fun x y => inferInstanceAs (Decidable (y.score ≤ x.score))

instance : IsTotal SRes scoreDesc :=
  ⟨fun a b => le_total b.score a.score⟩

instance : IsTrans SRes scoreDesc :=
  ⟨fun _ _ _ h1 h2 => le_trans h2 h1⟩

/-- Model of `searchDecisions(projectId, query, limit)`: over the project's
rows, the SQL `WHERE embedding IS NOT NULL` filter, the score map fused
with the `> 0.3` threshold filter (a record survives the JS filter exactly
when its score is a number above `0.3`, and only surviving records matter
downstream), the descending sort and the `slice(0, limit)` truncation.
The query embedding (an external provider call) is the `queryEmbedding`
input. -/
noncomputable def searchDecisions (queryEmbedding : List ℝ)
    (rows : List DecisionRow) (limit : Nat) : List SRes :=
  let withEmbedding := rows.filterMap (fun d => d.embedding.map (fun e => (d, e)))
  let kept := withEmbedding.filterMap (fun de =>
    (thresholdScore (cosineSimilarity queryEmbedding de.2)).map
      (fun s => ⟨de.1.id, de.1.title, s⟩))
  (List.insertionSort scoreDesc kept).take limit

/-! ### The search route (`POST /` of the search router) -/

/-- Does `needle` start `hay`? (helper for the substring test). -/
def charsStartWith : List Char → List Char → Bool
  | _, [] => true
  | [], _ :: _ => false
  | h :: t, nh :: nt => h == nh && charsStartWith t nt

/-- Does `needle` occur contiguously in `hay`? -/
def charsHaveSub (hay needle : List Char) : Bool :=
  match hay with
  | [] => charsStartWith [] needle
  | _ :: t => charsStartWith hay needle || charsHaveSub t needle

/-- ASCII lowering, modelling SQLite `LIKE`'s ASCII case-insensitivity. -/
def lowerAscii (s : String) : String :=
  ⟨s.data.map Char.toLower⟩

/-- `field LIKE '%query%'` for a non-null field (the query is interpolated
raw; the model covers queries without `LIKE` metacharacters). -/
def likeContains (field pat : String) : Bool :=
  charsHaveSub (lowerAscii field).data (lowerAscii pat).data

/-- `LIKE` on a nullable column: SQL `NULL LIKE p` is not a match. -/
def optLike (f : Option String) (q : String) : Bool :=
  match f with
  | none => false
  | some s => likeContains s q

/-- The fallback `WHERE` clause: any of the four text columns matches. -/
def likeRow (q : String) (d : DecisionRow) : Bool :=
  likeContains d.title q || optLike d.description q || optLike d.reason q
    || optLike d.consequences q

/-- A row of the fallback response: pass-through fields (reduced to `id`,
`title`, `createdAt`) plus the fixed score `1` attached by the route. -/
structure FallbackRow where
  id : Nat
  title : String
  createdAt : Nat
  score : ℚ
deriving DecidableEq, Repr

/-- `ORDER BY createdAt DESC`. -/
def recentDesc (x y : DecisionRow) : Prop :=
  y.createdAt ≤ x.createdAt

instance : DecidableRel recentDesc :=
  fun x y => inferInstanceAs (Decidable (y.createdAt ≤ x.createdAt))

instance : IsTotal DecisionRow recentDesc :=
  ⟨fun a b => Nat.le_total b.createdAt a.createdAt⟩

instance : IsTrans DecisionRow recentDesc :=
  ⟨fun _ _ _ h1 h2 => Nat.le_trans h2 h1⟩

/-- The fallback text search of the route: `LIKE` filter over the project's
decisions, `ORDER BY createdAt DESC LIMIT 10`, then `score: 1` attached to
every row. -/
def textSearch (rows : List DecisionRow) (q : String) : List FallbackRow :=
  ((List.insertionSort recentDesc (rows.filter (likeRow q))).take 10).map
    (fun d => ⟨d.id, d.title, d.createdAt, 1⟩)

/-- The JSON responses the search route can produce: a 400 validation
rejection, the fallback payload (`mode: 'text'`, `answer: null`), the
semantic payload (`mode: 'semantic'`), or the 500 catch-all of the
`try/catch`. -/
inductive SearchResponse where
  | invalid (status : Nat) (msg : String)
  | textMode (results : List FallbackRow)
  | semanticMode (results : List SRes) (answer : Option String)
  | failed (status : Nat) (msg : String)

/-- Number of results of a fallback response, `none` otherwise. -/
def SearchResponse.textCount : SearchResponse → Option Nat
  | .textMode rs => some rs.length
  | _ => none

/-- Model of the smart-search route handler.  The two external provider
calls are inputs: `embedOutcome` is `generateEmbedding(query)` (also
covering the `searchDecisions` configuration check) and `answerOutcome` is
the `generateAnswer` chat call, a resolved `content-or-null` or a rejection.
The tag enrichment of semantic results (pure DB reads) is omitted.  Both
`await`s sit in one `try` whose `catch` returns the 500 response. -/
noncomputable def searchRoute (available : Bool) (rows : List DecisionRow)
    (projectId : Option Nat) (query : Option String)
    (embedOutcome : Except String (List ℝ))
    (answerOutcome : Except String (Option String)) : SearchResponse :=
  match projectId with
  | none => .invalid 400 "Project ID is required"
  | some _ =>
    match query with
    | none => .invalid 400 "Search query is required"
    | some q =>
      if strTrim q = "" then .invalid 400 "Search query is required"
      else if available = false then
        .textMode (textSearch rows q)
      else
        match embedOutcome with
        | .error e => .failed 500 ("Search failed: " ++ e)
        | .ok qe =>
          let results := searchDecisions qe rows 5
          if 0 < results.length then
            match answerOutcome with
            | .error e => .failed 500 ("Search failed: " ++ e)
            | .ok answer => .semanticMode results answer
          else
            .semanticMode results none

/-- Concrete one-decision project (embedding `[1]` stored) for witnesses. -/
noncomputable def demoSemRows : List DecisionRow :=
  [⟨1, "t", none, none, none, some [1], 5⟩]

/-- Concrete project with eleven decisions, all matching the query `"q"`,
none embedded; `createdAt` and `id` are `1..11`. -/
def demoTextRows : List DecisionRow :=
  (List.range 11).map (fun i => ⟨i + 1, "q", none, none, none, none, i + 1⟩)

/-! ### Reconciler lemmas -/

/-- An entry whose title is missing or empty is dropped by `continue`
without touching state or counters. -/
theorem processEntry_untitled (mode : String) (p : Nat) (snap : List TaskRow)
    (st : BatchState) (e : TaskEntry) (h : entryHasTitle e = false) :
    processEntry mode p snap st e = st := by
  cases he : entryTitle e with
  | none => simp [processEntry, he]
  | some t =>
    have ht : t = "" := by
      simp [entryHasTitle, he] at h
      exact h
    simp [processEntry, he, ht]

/-- In `create_new` mode a titled entry is inserted unconditionally. -/
theorem processEntry_createNew (p : Nat) (snap : List TaskRow)
    (st : BatchState) (e : TaskEntry) (h : entryHasTitle e = true) :
    processEntry "create_new" p snap st e =
      { st with table := st.table ++ [mkNewRow p st.nextId e],
                nextId := st.nextId + 1, created := st.created + 1 } := by
  cases he : entryTitle e with
  | none => simp [entryHasTitle, he] at h
  | some t =>
    have ht : ¬(t = "") := by
      simp [entryHasTitle, he] at h
      exact h
    simp [processEntry, he, ht, mkNewRow]

/-- Closed form of the `create_new` loop: the table is extended by one row
per titled entry and only `created` advances. -/
theorem foldl_createNew (p : Nat) (snap : List TaskRow) (ts : List TaskEntry) :
    ∀ st : BatchState,
      ts.foldl (processEntry "create_new" p snap) st =
        ⟨st.table ++ createRows p st.nextId (titledEntries ts),
         st.nextId + (titledEntries ts).length,
         st.created + (titledEntries ts).length,
         st.updated, st.skipped⟩ := by
  induction ts with
  | nil => intro st; simp [titledEntries, createRows]
  | cons e es ih =>
    intro st
    cases he : entryHasTitle e with
    | false =>
      rw [List.foldl_cons, processEntry_untitled _ _ _ _ _ he, ih]
      simp [titledEntries, List.filter_cons, he]
    | true =>
      rw [List.foldl_cons, processEntry_createNew _ _ _ _ he, ih]
      simp only [titledEntries, List.filter_cons, he, if_true, cond_true]
      simp [createRows]
      omega

/-- Each titled entry advances exactly one of the three counters, in any
mode; untitled entries advance none. -/
theorem processEntry_counts (mode : String) (p : Nat) (snap : List TaskRow)
    (st : BatchState) (e : TaskEntry) (h : entryHasTitle e = true) :
    (processEntry mode p snap st e).created + (processEntry mode p snap st e).updated
        + (processEntry mode p snap st e).skipped
      = st.created + st.updated + st.skipped + 1 := by
  cases he : entryTitle e with
  | none => simp [entryHasTitle, he] at h
  | some t =>
    have ht : ¬(t = "") := by
      simp [entryHasTitle, he] at h
      exact h
    simp only [processEntry, he, if_neg ht]
    split
    · simp
      omega
    · split
      · split
        · simp
          omega
        · simp
          omega
      · simp
        omega

/-- Count invariant of the whole loop: the three counters sum to the number
of titled entries. -/
theorem foldl_counts (mode : String) (p : Nat) (snap : List TaskRow)
    (ts : List TaskEntry) :
    ∀ st : BatchState,
      (ts.foldl (processEntry mode p snap) st).created
          + (ts.foldl (processEntry mode p snap) st).updated
          + (ts.foldl (processEntry mode p snap) st).skipped
        = st.created + st.updated + st.skipped + (titledEntries ts).length := by
  induction ts with
  | nil => intro st; simp [titledEntries]
  | cons e es ih =>
    intro st
    cases he : entryHasTitle e with
    | false =>
      rw [List.foldl_cons, processEntry_untitled _ _ _ _ _ he, ih]
      simp [titledEntries, List.filter_cons, he]
    | true =>
      rw [List.foldl_cons, ih]
      have := processEntry_counts mode p snap st e he
      simp only [titledEntries, List.filter_cons, he, if_true, cond_true,
        List.length_cons]
      omega

/-- `entryPriority` only ever yields one of the three enumerated values. -/
theorem entryPriority_enum (e : TaskEntry) :
    entryPriority e = "low" ∨ entryPriority e = "medium" ∨ entryPriority e = "high" := by
  cases e with
  | str s => simp [entryPriority]
  | obj t s pr =>
    cases pr with
    | none => simp [entryPriority]
    | some q =>
      simp only [entryPriority]
      split
      · rename_i hq
        rcases hq with h | h | h
        · exact Or.inl h
        · exact Or.inr (Or.inl h)
        · exact Or.inr (Or.inr h)
      · simp

/-! ### Claim theorems for the reconciler -/

/-- C8: Title normalization lowercases, trims, strips trailing punctuation,
removes quotes and collapses internal whitespace runs; in particular
`normalizeTitle "  Refactor   Auth   Module!!  " = "refactor auth module"`. -/
theorem normalize_title_round_trip :
    normalizeTitle "  Refactor   Auth   Module!!  " = "refactor auth module" := by
  decide

/-- C2: In merge mode an entry with a (truthy) title is handled by exactly
the claimed trichotomy: a matching existing task that is not yet done and an
incoming "done" status turn the existing task done and count `updated`; a
matching existing task otherwise counts `skipped` with no write; no match
inserts a new task and counts `created`. -/
theorem merge_mode_trichotomy (p : Nat) (snap : List TaskRow) (st : BatchState)
    (e : TaskEntry) (t : String) (ht : entryTitle e = some t) (hne : t ≠ "") :
    (∀ ex, lookupNorm snap (normalizeTitle t) = some ex →
        ((entryStatus e = "done" ∧ ex.status ≠ "done") →
            processEntry "merge" p snap st e =
              { st with table := setDone st.table ex.id, updated := st.updated + 1 }) ∧
        (¬(entryStatus e = "done" ∧ ex.status ≠ "done") →
            processEntry "merge" p snap st e = { st with skipped := st.skipped + 1 })) ∧
    (lookupNorm snap (normalizeTitle t) = none →
        processEntry "merge" p snap st e =
          { st with table := st.table ++ [mkNewRow p st.nextId e],
                    nextId := st.nextId + 1, created := st.created + 1 }) := by
  constructor
  · intro ex hex
    constructor
    · intro hcond
      simp [processEntry, ht, hne, hex, hcond, mkNewRow]
    · intro hcond
      simp [processEntry, ht, hne, hex, hcond, mkNewRow]
  · intro hnone
    simp [processEntry, ht, hne, hnone, mkNewRow]

/-- Witness for C2: the spec's own example — existing pending task
"Fix login bug", incoming `{title: "fix login bug.", status: "done"}` —
is matched and transitioned to done, counting one update. -/
theorem merge_mode_trichotomy_witness :
    processEntry "merge" 7 [⟨10, 7, "Fix login bug", "pending", "medium"⟩]
        ⟨[⟨10, 7, "Fix login bug", "pending", "medium"⟩], 11, 0, 0, 0⟩
        (.obj (some "fix login bug.") (some "done") none) =
      ⟨[⟨10, 7, "Fix login bug", "done", "medium"⟩], 11, 0, 1, 0⟩ := by
  have h := (merge_mode_trichotomy 7 [⟨10, 7, "Fix login bug", "pending", "medium"⟩]
      ⟨[⟨10, 7, "Fix login bug", "pending", "medium"⟩], 11, 0, 0, 0⟩
      (.obj (some "fix login bug.") (some "done") none) "fix login bug."
      rfl (by decide)).1 ⟨10, 7, "Fix login bug", "pending", "medium"⟩ (by decide)
  rw [h.1 (by decide)]
  decide

/-- C3: In `create_new` mode every titled entry becomes a new task with the
entry's own status and validated priority; `created` equals the number of
entries with a non-empty title and `updated = skipped = 0`. -/
theorem create_new_batch (p : Nat) (ts : List TaskEntry) (table : List TaskRow)
    (nextId : Nat) :
    saveTasks (some p) (.arr ts) "create_new" table nextId =
      ⟨.ok ⟨(titledEntries ts).length, 0, 0, ts.length⟩ "create_new",
       table ++ createRows p nextId (titledEntries ts)⟩ ∧
    ∀ e : TaskEntry,
      entryPriority e = "low" ∨ entryPriority e = "medium" ∨ entryPriority e = "high" := by
  refine ⟨?_, entryPriority_enum⟩
  simp only [saveTasks]
  rw [foldl_createNew]
  simp

/-- C9: The reconciler rejects with `InvalidInput` exactly when the project
id is missing or the entries value is not an array; untitled entries are
silently dropped (no state change, no count); and a valid batch always
completes with a success response whose counters account exactly for the
titled entries — no single entry can fail the batch. -/
theorem save_tasks_error_handling :
    (∀ (pid : Option Nat) (tf : TasksField) (mode : String) (table : List TaskRow)
        (nid : Nat),
        (saveTasks pid tf mode table nid).response.isInvalid = true ↔
          (pid = none ∨ tf = .missing ∨ tf = .notArray)) ∧
    (∀ (mode : String) (p : Nat) (snap : List TaskRow) (st : BatchState)
        (e : TaskEntry),
        entryHasTitle e = false → processEntry mode p snap st e = st) ∧
    (∀ (p : Nat) (ts : List TaskEntry) (mode : String) (table : List TaskRow)
        (nid : Nat),
        ∃ stats : SaveStats,
          (saveTasks (some p) (.arr ts) mode table nid).response = .ok stats mode ∧
          stats.created + stats.updated + stats.skipped = (titledEntries ts).length ∧
          stats.total = ts.length) := by
  refine ⟨?_, processEntry_untitled, ?_⟩
  · intro pid tf mode table nid
    cases pid with
    | none => cases tf <;> simp [saveTasks, SaveResp.isInvalid]
    | some p => cases tf <;> simp [saveTasks, SaveResp.isInvalid]
  · intro p ts mode table nid
    refine ⟨_, rfl, ?_, rfl⟩
    have h := foldl_counts mode p (table.filter (fun t => t.projectId == p)) ts
      ⟨table, nid, 0, 0, 0⟩
    simpa using h

/-- Witness for C9: a missing project id is rejected, and an object entry
without a title is dropped without any effect. -/
theorem save_tasks_error_handling_witness :
    (saveTasks none .missing "merge" [] 1).response.isInvalid = true ∧
    processEntry "merge" 1 [] ⟨[], 1, 0, 0, 0⟩ (.obj none (some "done") none) =
      ⟨[], 1, 0, 0, 0⟩ :=
  ⟨(save_tasks_error_handling.1 none .missing "merge" [] 1).mpr (Or.inl rfl),
   save_tasks_error_handling.2.1 "merge" 1 [] ⟨[], 1, 0, 0, 0⟩
     (.obj none (some "done") none) (by decide)⟩

/-- C10: The existing-task snapshot is read once and never extended during
the batch, so a merge batch with two entries of equal normalized title (and
no matching pre-existing task) creates two duplicate tasks: a concrete such
batch yields `created = 2` and two inserted rows with the same normalized
title. -/
theorem snapshot_duplicate_creation :
    saveTasks (some 1) (.arr [.str "Task A", .str "task  a."]) "merge" [] 1 =
      ⟨.ok ⟨2, 0, 0, 2⟩ "merge",
       [⟨1, 1, "Task A", "pending", "medium"⟩,
        ⟨2, 1, "task  a.", "pending", "medium"⟩]⟩ ∧
    normalizeTitle "Task A" = normalizeTitle "task  a." := by
  decide

/-! ### Similarity lemmas -/

/-- The pointwise-product sum is symmetric. -/
theorem dotL_comm (a : List ℝ) : ∀ b : List ℝ, dotL a b = dotL b a := by
  induction a with
  | nil => intro b; cases b <;> simp [dotL]
  | cons x xs ih =>
    intro b
    cases b with
    | nil => simp [dotL]
    | cons y ys =>
      have h := ih ys
      simp only [dotL, List.zipWith_cons_cons, List.sum_cons] at h ⊢
      rw [mul_comm x y, h]

/-- A vector's self-product sum (its squared norm) is nonnegative. -/
theorem dotL_self_nonneg (a : List ℝ) : 0 ≤ dotL a a := by
  induction a with
  | nil => simp [dotL]
  | cons x xs ih =>
    simp only [dotL, List.zipWith_cons_cons, List.sum_cons] at ih ⊢
    nlinarith [mul_self_nonneg x]

/-- Cauchy–Schwarz for the truncating pointwise-product sum. -/
theorem dotL_sq_le (a : List ℝ) : ∀ b : List ℝ, (dotL a b) ^ 2 ≤ dotL a a * dotL b b := by
  induction a with
  | nil => intro b; simp [dotL]
  | cons x xs ih =>
    intro b
    cases b with
    | nil => simp [dotL]
    | cons y ys =>
      have IH := ih ys
      have hA := dotL_self_nonneg xs
      have hB := dotL_self_nonneg ys
      simp only [dotL, List.zipWith_cons_cons, List.sum_cons] at IH hA hB ⊢
      set S := (List.zipWith (· * ·) xs ys).sum with hSdef
      set A := (List.zipWith (· * ·) xs xs).sum with hAdef
      set B := (List.zipWith (· * ·) ys ys).sum with hBdef
      rcases eq_or_lt_of_le hA with hA0 | hApos
      · rw [← hA0] at IH
        have hS2 : S ^ 2 ≤ 0 := by simpa using IH
        have hS : S = 0 := sq_eq_zero_iff.mp (le_antisymm hS2 (sq_nonneg S))
        rw [hS, ← hA0]
        nlinarith [mul_nonneg (mul_self_nonneg x) hB]
      · nlinarith [sq_nonneg (x * S - y * A),
          mul_nonneg (add_nonneg (mul_self_nonneg x) hA) (sub_nonneg.mpr IH)]

/-- Cauchy–Schwarz in square-root form. -/
theorem abs_dotL_le (a b : List ℝ) :
    |dotL a b| ≤ Real.sqrt (dotL a a) * Real.sqrt (dotL b b) := by
  calc |dotL a b| = Real.sqrt ((dotL a b) ^ 2) := (Real.sqrt_sq_eq_abs _).symm
    _ ≤ Real.sqrt (dotL a a * dotL b b) := Real.sqrt_le_sqrt (dotL_sq_le a b)
    _ = Real.sqrt (dotL a a) * Real.sqrt (dotL b b) :=
        Real.sqrt_mul (dotL_self_nonneg a) _

/-- Whenever `cosineSimilarity` yields a number at all, it lies in `[-1, 1]`. -/
theorem cosine_some_bounds (a b : List ℝ) (s : ℝ)
    (h : cosineSimilarity a b = some s) : -1 ≤ s ∧ s ≤ 1 := by
  unfold cosineSimilarity at h
  split at h
  · cases h
    norm_num
  · split at h
    · cases h
    · rename_i hden
      cases h
      have hnn : 0 ≤ Real.sqrt (dotL a a) * Real.sqrt (dotL b b) :=
        mul_nonneg (Real.sqrt_nonneg _) (Real.sqrt_nonneg _)
      have hpos : 0 < Real.sqrt (dotL a a) * Real.sqrt (dotL b b) :=
        lt_of_le_of_ne hnn (Ne.symm hden)
      have habs : |dotL a b / (Real.sqrt (dotL a a) * Real.sqrt (dotL b b))| ≤ 1 := by
        rw [abs_div, abs_of_nonneg hnn]
        exact (div_le_one hpos).mpr (abs_dotL_le a b)
      exact abs_le.mp habs

/-- Unfolding a successful threshold test. -/
theorem thresholdScore_some (x : Option ℝ) (s : ℝ) (h : thresholdScore x = some s) :
    x = some s ∧ (3 : ℝ) / 10 < s := by
  cases x with
  | none => simp [thresholdScore] at h
  | some v =>
    simp only [thresholdScore] at h
    split at h
    · cases h
      exact ⟨rfl, by assumption⟩
    · cases h

/-- Every search result is derived from a project decision that has a
stored embedding, via a surviving threshold test. -/
theorem mem_searchDecisions (qe : List ℝ) (rows : List DecisionRow) (limit : Nat)
    (r : SRes) (hr : r ∈ searchDecisions qe rows limit) :
    ∃ d ∈ rows, ∃ e, d.embedding = some e ∧ r.id = d.id ∧ r.title = d.title ∧
      thresholdScore (cosineSimilarity qe e) = some r.score := by
  simp only [searchDecisions] at hr
  have h1 := List.take_subset _ _ hr
  have h2 := (List.perm_insertionSort scoreDesc _).mem_iff.mp h1
  rcases List.mem_filterMap.mp h2 with ⟨de, hde, hmap⟩
  rcases Option.map_eq_some'.mp hmap with ⟨s, hs, hrec⟩
  rcases List.mem_filterMap.mp hde with ⟨d, hd, hmap2⟩
  rcases Option.map_eq_some'.mp hmap2 with ⟨e, he, hpair⟩
  subst hpair
  subst hrec
  exact ⟨d, hd, e, he, rfl, rfl, hs⟩

/-- The similarity of the vectors `[1]` and `[1]` is `1`. -/
theorem cosine_one_one : cosineSimilarity [(1 : ℝ)] [(1 : ℝ)] = some 1 := by
  have h : dotL [(1 : ℝ)] [(1 : ℝ)] = 1 := by simp [dotL]
  simp [cosineSimilarity, h, Real.sqrt_one]

/-- Concrete evaluation of the semantic search on the one-decision project. -/
theorem searchDecisions_demo :
    searchDecisions [(1 : ℝ)] demoSemRows 5 = [⟨1, "t", 1⟩] := by
  simp only [searchDecisions, demoSemRows, List.filterMap_cons, List.filterMap_nil,
    Option.map_some', cosine_one_one, thresholdScore]
  norm_num [List.insertionSort, List.orderedInsert]

/-! ### Claim theorems for the search -/

/-- C1: The non-fallback semantic search returns at most `limit` results,
sorted non-increasing by score, none with score `≤ 0.3`, and every result
stems from a project decision with a stored embedding. -/
theorem searchDecisions_ranked (qe : List ℝ) (rows : List DecisionRow) (limit : Nat) :
    (searchDecisions qe rows limit).length ≤ limit ∧
    List.Sorted scoreDesc (searchDecisions qe rows limit) ∧
    (∀ r ∈ searchDecisions qe rows limit, (3 : ℝ) / 10 < r.score) ∧
    (∀ r ∈ searchDecisions qe rows limit,
        ∃ d ∈ rows, ∃ e, d.embedding = some e ∧ r.id = d.id ∧ r.title = d.title) := by
  refine ⟨?_, ?_, ?_, ?_⟩
  · simp only [searchDecisions]
    rw [List.length_take]
    exact min_le_left _ _
  · simp only [searchDecisions]
    exact List.Pairwise.sublist (List.take_sublist _ _)
      (List.sorted_insertionSort scoreDesc _)
  · intro r hr
    rcases mem_searchDecisions qe rows limit r hr with ⟨d, hd, e, he, _, _, hth⟩
    exact (thresholdScore_some _ _ hth).2
  · intro r hr
    rcases mem_searchDecisions qe rows limit r hr with ⟨d, hd, e, he, hid, htitle, _⟩
    exact ⟨d, hd, e, he, hid, htitle⟩

/-- Witness for C1 on the one-decision project: the bound and the
threshold hold at the concrete result. -/
theorem searchDecisions_ranked_witness :
    (searchDecisions [(1 : ℝ)] demoSemRows 5).length ≤ 5 ∧
    (3 : ℝ) / 10 < (SRes.mk 1 "t" 1).score :=
  ⟨(searchDecisions_ranked [(1 : ℝ)] demoSemRows 5).1,
   (searchDecisions_ranked [(1 : ℝ)] demoSemRows 5).2.2.1 ⟨1, "t", 1⟩
     (by simp [searchDecisions_demo])⟩

/-- C6 counterexample: on the equal-length pair of zero vectors the JS
code divides `0` by `0` and produces `NaN` — not a real number in `[-1, 1]`
(modelled as `none`). -/
theorem cosine_zero_vector_nan :
    cosineSimilarity [(0 : ℝ)] [(0 : ℝ)] = none := by
  have h : dotL [(0 : ℝ)] [(0 : ℝ)] = 0 := by simp [dotL]
  simp [cosineSimilarity, h, Real.sqrt_zero]

/-- C6 amended: for equal-length vectors that both have nonzero norm the
similarity is a number in `[-1, 1]`; zero-norm input yields `NaN` instead.
`SearchResult` scores always lie in `[0, 1]` (even in `(0.3, 1]`), since
`NaN` and `≤ 0.3` scores are filtered out. -/
theorem cosine_range :
    (∀ a b : List ℝ, a.length = b.length → dotL a a ≠ 0 → dotL b b ≠ 0 →
        ∃ r, cosineSimilarity a b = some r ∧ -1 ≤ r ∧ r ≤ 1) ∧
    (∀ (qe : List ℝ) (rows : List DecisionRow) (limit : Nat),
        ∀ r ∈ searchDecisions qe rows limit, 0 ≤ r.score ∧ r.score ≤ 1) := by
  constructor
  · intro a b hl ha hb
    have hsa : 0 < Real.sqrt (dotL a a) :=
      Real.sqrt_pos.mpr (lt_of_le_of_ne (dotL_self_nonneg a) (Ne.symm ha))
    have hsb : 0 < Real.sqrt (dotL b b) :=
      Real.sqrt_pos.mpr (lt_of_le_of_ne (dotL_self_nonneg b) (Ne.symm hb))
    have hden : Real.sqrt (dotL a a) * Real.sqrt (dotL b b) ≠ 0 :=
      ne_of_gt (mul_pos hsa hsb)
    have hsome : cosineSimilarity a b
        = some (dotL a b / (Real.sqrt (dotL a a) * Real.sqrt (dotL b b))) := by
      simp [cosineSimilarity, hl, hden]
    have hb2 := cosine_some_bounds a b _ hsome
    exact ⟨_, hsome, hb2.1, hb2.2⟩
  · intro qe rows limit r hr
    rcases mem_searchDecisions qe rows limit r hr with ⟨d, hd, e, he, _, _, hth⟩
    rcases thresholdScore_some _ _ hth with ⟨hc, hgt⟩
    have hb2 := cosine_some_bounds qe e r.score hc
    exact ⟨by linarith, hb2.2⟩

/-- Witness for C6: at `[1]`, `[1]` the similarity is a number in range,
and the concrete search result's score lies in `[0, 1]`. -/
theorem cosine_range_witness :
    (∃ r, cosineSimilarity [(1 : ℝ)] [(1 : ℝ)] = some r ∧ -1 ≤ r ∧ r ≤ 1) ∧
    (0 ≤ (SRes.mk 1 "t" 1).score ∧ (SRes.mk 1 "t" 1).score ≤ 1) :=
  ⟨cosine_range.1 [(1 : ℝ)] [(1 : ℝ)] rfl (by norm_num [dotL]) (by norm_num [dotL]),
   cosine_range.2 [(1 : ℝ)] demoSemRows 5 ⟨1, "t", 1⟩ (by simp [searchDecisions_demo])⟩

/-- C7: Cosine similarity is symmetric, including the length-mismatch
branch and the `NaN` branch. -/
theorem cosineSimilarity_comm (a b : List ℝ) :
    cosineSimilarity a b = cosineSimilarity b a := by
  unfold cosineSimilarity
  rw [dotL_comm b a, mul_comm (Real.sqrt (dotL b b)) (Real.sqrt (dotL a a))]
  by_cases h : a.length = b.length
  · simp [h]
  · simp [h, Ne.symm h]

/-- C4 counterexample: with one semantic result available, a rejected
answer-generation call hits the shared `catch` and fails the whole search
with a 500 response, instead of returning the result list with a null
answer. -/
theorem answer_failure_counterexample :
    searchRoute true demoSemRows (some 1) (some "q") (.ok [(1 : ℝ)])
        (.error "provider down") =
      .failed 500 ("Search failed: " ++ "provider down") := by
  have hq : ¬(strTrim "q" = "") := by decide
  simp [searchRoute, hq, searchDecisions_demo]

/-- C4 amended: both provider calls sit in one `try`; when the semantic
results are non-empty, a rejected answer-generation call fails the whole
search with the 500 catch-all, and the results are returned with a
(possibly null) answer only when that call resolves. -/
theorem answer_failure_amended (rows : List DecisionRow) (p : Nat) (q : String)
    (qe : List ℝ) (hq : strTrim q ≠ "")
    (hres : 0 < (searchDecisions qe rows 5).length) :
    (∀ e, searchRoute true rows (some p) (some q) (.ok qe) (.error e) =
        .failed 500 ("Search failed: " ++ e)) ∧
    (∀ ans, searchRoute true rows (some p) (some q) (.ok qe) (.ok ans) =
        .semanticMode (searchDecisions qe rows 5) ans) := by
  constructor
  · intro e
    simp [searchRoute, hq, hres]
  · intro ans
    simp [searchRoute, hq, hres]

/-- Witness for C4 at the one-decision project. -/
theorem answer_failure_amended_witness :
    searchRoute true demoSemRows (some 1) (some "q") (.ok [(1 : ℝ)]) (.error "x") =
      .failed 500 ("Search failed: " ++ "x") :=
  (answer_failure_amended demoSemRows 1 "q" [(1 : ℝ)] (by decide)
    (by rw [searchDecisions_demo]; norm_num)).1 "x"

/-- C5 counterexample: a project with eleven decisions matching the query
gets only ten fallback results (`LIMIT 10`), so the fallback does not
return all matching decisions. -/
theorem like_fallback_counterexample :
    (searchRoute false demoTextRows (some 1) (some "q") (.ok []) (.ok none)).textCount
        = some 10 ∧
    (demoTextRows.filter (likeRow "q")).length = 11 := by
  constructor
  · have hq : ¬(strTrim "q" = "") := by decide
    have h : searchRoute false demoTextRows (some 1) (some "q") (.ok []) (.ok none)
        = .textMode (textSearch demoTextRows "q") := by
      simp [searchRoute, hq]
    rw [h]
    decide
  · decide

/-- C5 amended: with no provider configured the route answers from the
`LIKE` fallback — at most the 10 most recent matching decisions, each with
fixed score `1`, ordered by recency only; with a provider configured, a
failing call surfaces as a 500 error and the fallback is not used. -/
theorem like_fallback_amended (rows : List DecisionRow) (p : Nat) (q : String)
    (eo : Except String (List ℝ)) (ao : Except String (Option String))
    (hq : strTrim q ≠ "") :
    searchRoute false rows (some p) (some q) eo ao = .textMode (textSearch rows q) ∧
    (textSearch rows q).length ≤ 10 ∧
    (∀ r ∈ textSearch rows q, r.score = 1) ∧
    List.Sorted (fun x y : FallbackRow => y.createdAt ≤ x.createdAt)
      (textSearch rows q) ∧
    (∀ r ∈ textSearch rows q, ∃ d ∈ rows, likeRow q d = true ∧ r.id = d.id ∧
        r.title = d.title ∧ r.createdAt = d.createdAt) ∧
    (∀ e, searchRoute true rows (some p) (some q) (.error e) ao =
        .failed 500 ("Search failed: " ++ e)) := by
  refine ⟨?_, ?_, ?_, ?_, ?_, ?_⟩
  · simp [searchRoute, hq]
  · simp only [textSearch, List.length_map]
    rw [List.length_take]
    exact min_le_left _ _
  · intro r hr
    simp only [textSearch, List.mem_map] at hr
    rcases hr with ⟨d, hd, hrd⟩
    rw [← hrd]
  · have hs : List.Sorted recentDesc
        ((List.insertionSort recentDesc (rows.filter (likeRow q))).take 10) :=
      List.Pairwise.sublist (List.take_sublist _ _)
        (List.sorted_insertionSort recentDesc _)
    exact List.Pairwise.map _ (fun a b h => h) hs
  · intro r hr
    simp only [textSearch, List.mem_map] at hr
    rcases hr with ⟨d, hd, hrd⟩
    have hd2 := List.take_subset _ _ hd
    have hd3 := (List.perm_insertionSort recentDesc _).mem_iff.mp hd2
    rcases List.mem_filter.mp hd3 with ⟨hdrows, hlike⟩
    exact ⟨d, hdrows, hlike, by rw [← hrd], by rw [← hrd], by rw [← hrd]⟩
  · intro e
    simp [searchRoute, hq]

/-- Witness for C5: the fallback is used on the eleven-decision project,
and a configured-but-failing provider surfaces the 500 error instead. -/
theorem like_fallback_amended_witness :
    searchRoute false demoTextRows (some 1) (some "q") (.ok []) (.ok none) =
      .textMode (textSearch demoTextRows "q") ∧
    searchRoute true demoTextRows (some 1) (some "q") (.error "down") (.ok none) =
      .failed 500 ("Search failed: " ++ "down") :=
  ⟨(like_fallback_amended demoTextRows 1 "q" (.ok []) (.ok none) (by decide)).1,
   (like_fallback_amended demoTextRows 1 "q" (.error "down") (.ok none)
      (by decide)).2.2.2.2.2 "down"⟩

end SecondBrain
